import Mathlib

/-!
Shallow embedding of the backend request-validation-and-proxy pipeline of the
ai-chat-interface repository (backend/middleware/validation.js,
backend/utils/openai.js, backend/routes/chat.js — the variant that reports
token usage and cost).  JavaScript strings are embedded as `List Char`,
JavaScript numbers occurring in cost arithmetic as `ℚ` (the source applies no
rounding operation, so the rational value is the exact value the arithmetic
expression denotes), absent-or-wrong-typed fields as `Option`, thrown
exceptions as `Except`, and the upstream OpenAI provider as an explicit
environment `Env` mapping each outgoing request to a provider result.  The
chat handler additionally returns the number of upstream client calls it
performed, so that "no network call occurs" claims are statable.
-/

namespace AIChatProxy

/-- JavaScript strings for fields we inspect character by character. -/
abbrev JSString := List Char

/-- Decidable equality for `Except`, so that concrete middleware outcomes can
be checked by evaluation. -/
instance exceptDecEq {ε α : Type} [DecidableEq ε] [DecidableEq α] :
    DecidableEq (Except ε α) := fun a b =>
  match a, b with
  | Except.ok x, Except.ok y =>
    if h : x = y then Decidable.isTrue (by rw [h])
    else Decidable.isFalse (fun hc => h (Except.ok.inj hc))
  | Except.error x, Except.error y =>
    if h : x = y then Decidable.isTrue (by rw [h])
    else Decidable.isFalse (fun hc => h (Except.error.inj hc))
  | Except.ok _, Except.error _ => Decidable.isFalse (fun hc => Except.noConfusion hc)
  | Except.error _, Except.ok _ => Decidable.isFalse (fun hc => Except.noConfusion hc)

/-- Characters admitted by the body of the API-key regular expression
`/^sk-[a-zA-Z0-9-_]\x7b20,\x7d$/` in validation.js: ASCII letters, digits,
hyphen and underscore. -/
def isKeyBodyChar (c : Char) : Bool :=
  ('a' ≤ c && c ≤ 'z') || ('A' ≤ c && c ≤ 'Z') || ('0' ≤ c && c ≤ '9') ||
    c = '-' || c = '_'

/-- Function isValidApiKey from validation.js: the value is a string (here: the
option is `some`) matching `sk-` followed by at least 20 characters from
`[a-zA-Z0-9-_]`, with nothing after them. -/
def isValidApiKey (key : Option JSString) : Bool :=
  match key with
  | none => false
  | some k =>
    match k with
    | 's' :: 'k' :: '-' :: rest => 20 ≤ rest.length && rest.all isKeyBodyChar
    | _ => false

/-- JavaScript truthiness of an optional string field: `undefined`, absent and
the empty string are falsy. -/
def jsTruthy : Option JSString → Bool
  | none => false
  | some s => !s.isEmpty

/-- The model allow-list check `model && ['gpt-3.5-turbo','gpt-4'].includes(model)`
from validation.js. -/
def isAllowedModel : Option String → Bool
  | some m => m == "gpt-3.5-turbo" || m == "gpt-4"
  | none => false

/-- Whitespace removed by JavaScript `String.prototype.trim` (the common
ASCII code points plus NBSP; the exotic Unicode space variants never occur in
the inputs reasoned about here). -/
def isJsWhitespace (c : Char) : Bool :=
  c = ' ' || c = '\t' || c = '\n' || c = '\r' || c = '\x0b' || c = '\x0c' ||
    c = '\xa0'

/-- JavaScript `String.prototype.trim`: strip leading and trailing whitespace. -/
def jsTrim (s : JSString) : JSString :=
  (((s.dropWhile isJsWhitespace).reverse).dropWhile isJsWhitespace).reverse

/-- The step message.replace of all left angle brackets by the entity, from validation.js. -/
def escapeLt : JSString → JSString
  | [] => []
  | c :: rest => (if c = '<' then ['&', 'l', 't', ';'] else [c]) ++ escapeLt rest

/-- The step message.replace of all right angle brackets by the entity, from validation.js. -/
def escapeGt : JSString → JSString
  | [] => []
  | c :: rest => (if c = '>' then ['&', 'g', 't', ';'] else [c]) ++ escapeGt rest

/-- The sanitization step of `validateChatRequest`:
`message.replace(/</g,'&lt;').replace(/>/g,'&gt;').trim()`. -/
def sanitizeMessage (m : JSString) : JSString :=
  jsTrim (escapeGt (escapeLt m))

/-- An HTTP error rejection `res.status(s).json(\x7berror, details?\x7d)`. -/
structure ErrorResponse where
  status : Nat
  error : String
  details : Option String
deriving DecidableEq, Repr

/-- The body of a POST /chat request.  `message` is `none` when absent or not
a string; `model` and `apiKey` are `none` when absent; `demoMode` is the
JavaScript truthiness of the demoMode field. -/
structure ChatBody where
  message : Option JSString
  model : Option String
  apiKey : Option JSString
  demoMode : Bool
deriving DecidableEq, Repr

/-- Replace the apiKey field of a request body, leaving the rest unchanged. -/
def withApiKey (b : ChatBody) (k : Option JSString) : ChatBody :=
  ⟨b.message, b.model, k, b.demoMode⟩

/-- Middleware validateChatRequest from validation.js: checks message
presence/type, message length (on the raw message), model allow-list, and —
only when demoMode is falsy — the API-key format; on success it passes the
body on with the message replaced by its sanitized form.  Each rejection is a
400 with the literal error string of the source. -/
def validateChatRequest (b : ChatBody) : Except ErrorResponse ChatBody :=
  match b.message with
  | none => Except.error ⟨400, "Message is required and must be a string", none⟩
  | some msg =>
    if msg.isEmpty then
      Except.error ⟨400, "Message is required and must be a string", none⟩
    else if 4000 < msg.length then
      Except.error ⟨400, "Message is too long (max 4000 characters)", none⟩
    else if !isAllowedModel b.model then
      Except.error ⟨400, "Invalid model selected", none⟩
    else if !b.demoMode && (!jsTruthy b.apiKey || !isValidApiKey b.apiKey) then
      Except.error ⟨400, "Invalid API key format", none⟩
    else
      Except.ok ⟨some (sanitizeMessage msg), b.model, b.apiKey, b.demoMode⟩

/-- The body of a POST /validate-key request. -/
structure KeyBody where
  apiKey : Option JSString
deriving DecidableEq, Repr

/-- Middleware validateKeyRequest from validation.js: rejects 400 when the
key is falsy or fails the format check, otherwise passes the body on. -/
def validateKeyRequest (kb : KeyBody) : Except ErrorResponse KeyBody :=
  if !jsTruthy kb.apiKey || !isValidApiKey kb.apiKey then
    Except.error ⟨400, "Invalid API key format", none⟩
  else
    Except.ok kb

/-- Whether a middleware outcome reached `next()` rather than a rejection. -/
def isAccepted {ε α : Type} : Except ε α → Bool
  | Except.ok _ => true
  | Except.error _ => false

/-- A row of the `PRICING` table in openai.js: price per 1K input tokens and
per 1K output tokens, in USD. -/
structure ModelPricing where
  input : ℚ
  output : ℚ
deriving DecidableEq, Repr

/-- The `PRICING` table in openai.js, as the JavaScript property lookup
`PRICING[model]`: an absent key (or an undefined model) yields `none`. -/
def PRICING : Option String → Option ModelPricing
  | some "gpt-3.5-turbo" => some ⟨0.0015, 0.002⟩
  | some "gpt-4" => some ⟨0.03, 0.06⟩
  | _ => none

/-- Function calculateCost from openai.js: unknown model yields 0; otherwise
`(promptTokens/1000)*input + (completionTokens/1000)*output`, with no rounding
operation anywhere. -/
def calculateCost (model : Option String) (promptTokens completionTokens : ℚ) : ℚ :=
  match PRICING model with
  | none => 0
  | some modelPricing =>
    (promptTokens / 1000) * modelPricing.input +
      (completionTokens / 1000) * modelPricing.output

/-- The `usage` object of a successful provider completion
(`completion.usage`): the provider's reported token counts. -/
structure ProviderUsage where
  prompt_tokens : Nat
  completion_tokens : Nat
  total_tokens : Nat
deriving DecidableEq, Repr

/-- A successful provider completion: the first choice's message content and
the usage block. -/
structure ProviderCompletion where
  content : String
  usage : ProviderUsage
deriving DecidableEq, Repr

/-- A provider-side exception; `message` models the optional chain
`error.response?.data?.error?.message`. -/
structure ProviderError where
  message : Option String
deriving DecidableEq, Repr

/-- The request `getChatCompletion` sends upstream: a client built from the
caller's key, and a completion call with the fixed parameters of the source
(`max_tokens: 1000`, `temperature: 0.7`, a single user message). -/
structure CompletionRequest where
  apiKey : Option JSString
  model : Option String
  message : Option JSString
  max_tokens : Nat
  temperature : ℚ
deriving DecidableEq

/-- Build the upstream completion request exactly as getChatCompletion does. -/
def mkCompletionRequest (apiKey : Option JSString) (message : Option JSString)
    (model : Option String) : CompletionRequest :=
  ⟨apiKey, model, message, 1000, 0.7⟩

/-- The upstream provider as an explicit environment: what one completion call
and one models.list call return (or throw) for a given request. -/
structure Env where
  complete : CompletionRequest → Except ProviderError ProviderCompletion
  listModels : Option JSString → Except ProviderError Unit

/-- The normalization in getChatCompletion's catch block:
`error.response?.data?.error?.message || 'Failed to get response from OpenAI'`
(the JavaScript `||` falls through on an absent or empty message). -/
def normalizeUpstreamMessage (e : ProviderError) : String :=
  match e.message with
  | some m => if m = "" then "Failed to get response from OpenAI" else m
  | none => "Failed to get response from OpenAI"

/-- The usage object the backend returns: token counts plus derived cost. -/
structure UsageRecord where
  promptTokens : Nat
  completionTokens : Nat
  totalTokens : Nat
  cost : ℚ
deriving DecidableEq, Repr

/-- The value `getChatCompletion` resolves with: content plus usage. -/
structure ChatCompletionResult where
  content : String
  usage : UsageRecord
deriving DecidableEq, Repr

/-- Function getChatCompletion from openai.js: constructs a client from the caller's
key, issues one completion call, and on success returns the content together
with the provider's prompt/completion/total token counts (the total copied
verbatim from `completion.usage.total_tokens`) and the derived cost; any
provider exception is re-thrown as the single normalized failure string. -/
def getChatCompletion (env : Env) (apiKey : Option JSString)
    (message : Option JSString) (model : Option String) :
    Except String ChatCompletionResult :=
  match env.complete (mkCompletionRequest apiKey message model) with
  | Except.ok completion =>
    Except.ok ⟨completion.content,
      ⟨completion.usage.prompt_tokens,
       completion.usage.completion_tokens,
       completion.usage.total_tokens,
       calculateCost model (completion.usage.prompt_tokens : ℚ)
         (completion.usage.completion_tokens : ℚ)⟩⟩
  | Except.error e => Except.error (normalizeUpstreamMessage e)

/-- Function validateApiKey from openai.js: attempts a models.list call with a client
built from the key; returns true on success and false on any exception. -/
def validateApiKey (env : Env) (apiKey : Option JSString) : Bool :=
  match env.listModels apiKey with
  | Except.ok _ => true
  | Except.error _ => false

/-- Function getDemoResponse from openai.js: ignores the message and returns the
canned template parameterized only by the model name (the artificial 500 ms
delay has no observable effect on the returned value and is not modelled). -/
def getDemoResponse (message : Option JSString) (model : Option String) : String :=
  if model = some "gpt-4" then
    "This is a demo response. In the full version, this would be a response from gpt-4."
  else
    "This is a demo response. In the full version, this would be a response from gpt-3.5-turbo."

/-- The JSON body and status the chat route sends back, as optional fields. -/
structure ChatHttpResponse where
  status : Nat
  content : Option String
  usage : Option UsageRecord
  error : Option String
  details : Option String
deriving DecidableEq, Repr

/-- The POST /chat route from routes/chat.js (middleware then handler).
`dev` is whether `process.env.NODE_ENV === 'development'`.  The second
component counts how many upstream client calls the request performed, so
that absence of network access is a statable property: 0 on the validation
rejection path and the demo path, 1 on the upstream path. -/
def handleChatPost (env : Env) (dev : Bool) (b : ChatBody) :
    ChatHttpResponse × Nat :=
  match validateChatRequest b with
  | Except.error e => (⟨e.status, none, none, some e.error, e.details⟩, 0)
  | Except.ok body =>
    if body.demoMode then
      (⟨200, some (getDemoResponse body.message body.model),
        some ⟨0, 0, 0, 0⟩, none, none⟩, 0)
    else
      match getChatCompletion env body.apiKey body.message body.model with
      | Except.ok r => (⟨200, some r.content, some r.usage, none, none⟩, 1)
      | Except.error msg =>
        (⟨500, none, none, some "Failed to process chat message",
          if dev then some msg else none⟩, 1)

/-- The JSON body and status the validate-key route sends back. -/
structure KeyHttpResponse where
  status : Nat
  valid : Option Bool
  error : Option String
deriving DecidableEq, Repr

/-- The POST /validate-key route from routes/chat.js (middleware then
handler): a format rejection is a 400; otherwise the boolean result of
`validateApiKey` is returned with status 200 (the handler's own catch block is
unreachable because `validateApiKey` catches every provider exception). -/
def handleValidateKey (env : Env) (kb : KeyBody) : KeyHttpResponse :=
  match validateKeyRequest kb with
  | Except.error e => ⟨e.status, none, some e.error⟩
  | Except.ok body => ⟨200, some (validateApiKey env body.apiKey), none⟩

/-- One entry of the GET /models response. -/
structure ModelInfo where
  id : String
  name : String
deriving DecidableEq, Repr

/-- The GET /models route from routes/chat.js.  The handler reads nothing
from the request or any server state; the `prior` argument stands for every
piece of state a previous request could have left behind. -/
def handleGetModels (prior : List ChatBody) : List ModelInfo :=
  [⟨"gpt-3.5-turbo", "GPT-3.5 Turbo"⟩, ⟨"gpt-4", "GPT-4"⟩]

/-- A syntactically valid API key: `sk-` followed by twenty `a` characters. -/
def sampleKey : JSString := 's' :: 'k' :: '-' :: List.replicate 20 'a'

/-- A demo-mode request body that passes validation. -/
def demoBody : ChatBody := ⟨some ['H', 'e', 'l', 'l', 'o'], some "gpt-3.5-turbo", none, true⟩

/-- A second demo-mode request body: different message and credential, same
model as `demoBody`. -/
def demoBody2 : ChatBody := ⟨some ['B', 'y', 'e'], some "gpt-3.5-turbo", some sampleKey, true⟩

/-- Scenario C of the spec: non-demo request with no credential. -/
def scenarioCBody : ChatBody := ⟨some ['H', 'i'], some "gpt-3.5-turbo", none, false⟩

/-- A non-demo request body with a well-formed credential. -/
def upstreamBody : ChatBody := ⟨some ['H', 'i'], some "gpt-4", some sampleKey, false⟩

/-- A request body whose raw message is 4001 characters long. -/
def longBody : ChatBody := ⟨some (List.replicate 4001 'a'), some "gpt-4", none, true⟩

/-- A request body whose raw message is exactly 4000 `<` characters. -/
def oversizedLtBody : ChatBody := ⟨some (List.replicate 4000 '<'), some "gpt-4", none, true⟩

/-- An environment in which every provider call throws with no message. -/
def errEnv : Env := ⟨fun _ => Except.error ⟨none⟩, fun _ => Except.error ⟨none⟩⟩

/-- An environment in which the completion call throws carrying a provider
message, and models.list throws as well. -/
def rateLimitEnv : Env :=
  ⟨fun _ => Except.error ⟨some "Rate limit reached"⟩,
   fun _ => Except.error ⟨some "Rate limit reached"⟩⟩

/-- An environment whose provider reports an internally inconsistent usage
block: total_tokens = 5 while prompt_tokens = completion_tokens = 1. -/
def inconsistentUsageEnv : Env :=
  ⟨fun _ => Except.ok ⟨"hello", ⟨1, 1, 5⟩⟩, fun _ => Except.error ⟨none⟩⟩

/-- An environment whose provider succeeds with a consistent usage block. -/
def consistentUsageEnv : Env :=
  ⟨fun _ => Except.ok ⟨"hello", ⟨3, 4, 7⟩⟩, fun _ => Except.ok ()⟩

/-- Inversion of a successful validation: the middleware reached `next()` with
the same body except that the message was replaced by its sanitized form. -/
theorem validateChatRequest_ok_shape (b v : ChatBody)
    (h : validateChatRequest b = Except.ok v) :
    ∃ msg, b.message = some msg ∧
      v = ⟨some (sanitizeMessage msg), b.model, b.apiKey, b.demoMode⟩ := by
  cases hm : b.message with
  | none =>
    simp only [validateChatRequest, hm] at h
    exact Except.noConfusion h
  | some msg =>
    simp only [validateChatRequest, hm] at h
    refine ⟨msg, rfl, ?_⟩
    split_ifs at h
    all_goals first
      | exact Except.noConfusion h
      | exact (Except.ok.inj h).symm

/-- Every rejection of `validateChatRequest` is a 400 with no details. -/
theorem validateChatRequest_error_status (b : ChatBody) (e : ErrorResponse)
    (h : validateChatRequest b = Except.error e) :
    e.status = 400 ∧ e.details = none := by
  cases hm : b.message with
  | none =>
    simp only [validateChatRequest, hm] at h
    cases Except.error.inj h
    exact ⟨rfl, rfl⟩
  | some msg =>
    simp only [validateChatRequest, hm] at h
    split_ifs at h
    all_goals first
      | exact Except.noConfusion h
      | (cases Except.error.inj h; exact ⟨rfl, rfl⟩)

/-- Behaviour of the chat route when validation rejects. -/
theorem handleChatPost_invalid_eq (env : Env) (dev : Bool) (b : ChatBody)
    (e : ErrorResponse) (hv : validateChatRequest b = Except.error e) :
    handleChatPost env dev b =
      (⟨e.status, none, none, some e.error, e.details⟩, 0) := by
  simp [handleChatPost, hv]

/-- Behaviour of the chat route on the demo path. -/
theorem handleChatPost_demo_eq (env : Env) (dev : Bool) (b body : ChatBody)
    (hv : validateChatRequest b = Except.ok body) (hd : body.demoMode = true) :
    handleChatPost env dev b =
      (⟨200, some (getDemoResponse body.message body.model),
        some ⟨0, 0, 0, 0⟩, none, none⟩, 0) := by
  simp [handleChatPost, hv, hd]

/-- Behaviour of the chat route on a successful upstream path. -/
theorem handleChatPost_upstream_ok_eq (env : Env) (dev : Bool) (b body : ChatBody)
    (r : ChatCompletionResult)
    (hv : validateChatRequest b = Except.ok body) (hd : body.demoMode = false)
    (hr : getChatCompletion env body.apiKey body.message body.model = Except.ok r) :
    handleChatPost env dev b =
      (⟨200, some r.content, some r.usage, none, none⟩, 1) := by
  simp [handleChatPost, hv, hd, hr]

/-- Behaviour of the chat route on a failing upstream path. -/
theorem handleChatPost_upstream_err_eq (env : Env) (dev : Bool) (b body : ChatBody)
    (msg : String)
    (hv : validateChatRequest b = Except.ok body) (hd : body.demoMode = false)
    (hr : getChatCompletion env body.apiKey body.message body.model =
      Except.error msg) :
    handleChatPost env dev b =
      (⟨500, none, none, some "Failed to process chat message",
        if dev then some msg else none⟩, 1) := by
  simp [handleChatPost, hv, hd, hr]

/-- Behaviour of getChatCompletion when the provider succeeds. -/
theorem getChatCompletion_ok_eq (env : Env) (k m : Option JSString)
    (mod : Option String) (completion : ProviderCompletion)
    (hc : env.complete (mkCompletionRequest k m mod) = Except.ok completion) :
    getChatCompletion env k m mod = Except.ok ⟨completion.content,
      ⟨completion.usage.prompt_tokens, completion.usage.completion_tokens,
       completion.usage.total_tokens,
       calculateCost mod (completion.usage.prompt_tokens : ℚ)
         (completion.usage.completion_tokens : ℚ)⟩⟩ := by
  simp [getChatCompletion, hc]

/-- Behaviour of getChatCompletion when the provider throws. -/
theorem getChatCompletion_err_eq (env : Env) (k m : Option JSString)
    (mod : Option String) (pe : ProviderError)
    (hc : env.complete (mkCompletionRequest k m mod) = Except.error pe) :
    getChatCompletion env k m mod =
      Except.error (normalizeUpstreamMessage pe) := by
  simp [getChatCompletion, hc]

/-- Escaping a run of `n` left angle brackets yields `4 * n` characters. -/
theorem escapeLt_replicate_length (n : Nat) :
    (escapeLt (List.replicate n '<')).length = 4 * n := by
  induction n with
  | zero => rfl
  | succ k ih =>
    rw [List.replicate_succ]
    simp [escapeLt, ih]
    omega

/-- Every character of the escaped run of left angle brackets is one of the
four characters of the entity `&lt;`. -/
theorem mem_escapeLt_replicate (n : Nat) (c : Char)
    (h : c ∈ escapeLt (List.replicate n '<')) :
    c = '&' ∨ c = 'l' ∨ c = 't' ∨ c = ';' := by
  induction n with
  | zero => simp [escapeLt] at h
  | succ k ih =>
    rw [List.replicate_succ] at h
    simp only [escapeLt, if_pos rfl, List.mem_append] at h
    rcases h with h | h
    · simp at h
      tauto
    · exact ih h

/-- Escaping right angle brackets is the identity on a string without them. -/
theorem escapeGt_eq_self (l : JSString) (h : ∀ c ∈ l, c ≠ '>') :
    escapeGt l = l := by
  induction l with
  | nil => rfl
  | cons a t ih =>
    have ha : a ≠ '>' := h a (List.mem_cons_self a t)
    simp [escapeGt, ha]
    exact ih fun c hc => h c (List.mem_cons_of_mem a hc)

/-- dropWhile is the identity when the predicate holds nowhere in the list. -/
theorem dropWhile_eq_self_of_none (p : Char → Bool) (l : JSString)
    (h : ∀ c ∈ l, p c = false) : List.dropWhile p l = l := by
  cases l with
  | nil => rfl
  | cons a t => simp [List.dropWhile, h a (List.mem_cons_self a t)]

/-- Trimming is the identity on a string containing no whitespace at all. -/
theorem jsTrim_eq_self (l : JSString) (h : ∀ c ∈ l, isJsWhitespace c = false) :
    jsTrim l = l := by
  unfold jsTrim
  rw [dropWhile_eq_self_of_none _ _ h]
  rw [dropWhile_eq_self_of_none]
  · exact List.reverse_reverse l
  · intro c hc
    exact h c (List.mem_reverse.mp hc)

/-- Sanitizing a message consisting of `n` left angle brackets produces a
message of `4 * n` characters: each `<` becomes the four-character entity,
no `>` remains to escape, and trimming removes nothing. -/
theorem sanitizeMessage_replicate_lt (n : Nat) :
    (sanitizeMessage (List.replicate n '<')).length = 4 * n := by
  unfold sanitizeMessage
  have hgt : escapeGt (escapeLt (List.replicate n '<')) =
      escapeLt (List.replicate n '<') := by
    apply escapeGt_eq_self
    intro c hc
    rcases mem_escapeLt_replicate n c hc with h | h | h | h <;> rw [h] <;> decide
  rw [hgt]
  rw [jsTrim_eq_self]
  · exact escapeLt_replicate_length n
  · intro c hc
    rcases mem_escapeLt_replicate n c hc with h | h | h | h <;> rw [h] <;> decide

/-- The demo responder reads only the model, never the message. -/
theorem getDemoResponse_ignores_message (m1 m2 : Option JSString)
    (mod : Option String) : getDemoResponse m1 mod = getDemoResponse m2 mod := rfl

/-- Claim C3: for all (model, p, c), calculateCost returns 0 when the model is
absent from the PRICING table, and exactly p/1000 × inputPrice +
c/1000 × outputPrice when present; the definition applies no rounding, and the
rational arithmetic is the exact value of the source expression. -/
theorem C3_calculateCost_spec (model : Option String) (p c : ℚ) :
    (PRICING model = none → calculateCost model p c = 0) ∧
    (∀ mp : ModelPricing, PRICING model = some mp →
      calculateCost model p c = p / 1000 * mp.input + c / 1000 * mp.output) := by
  constructor
  · intro h
    unfold calculateCost
    rw [h]
  · intro mp h
    unfold calculateCost
    rw [h]

/-- Witness for C3: the table hit gpt-4 and a table miss, at concrete token
counts, via C3_calculateCost_spec. -/
theorem C3_calculateCost_spec_witness :
    (PRICING (some "gpt-4") = some ⟨0.03, 0.06⟩ ∧
      calculateCost (some "gpt-4") 100 50 =
        (100 : ℚ) / 1000 * 0.03 + (50 : ℚ) / 1000 * 0.06) ∧
    (PRICING (some "gpt-5") = none ∧ calculateCost (some "gpt-5") 100 50 = 0) :=
  ⟨⟨rfl, (C3_calculateCost_spec (some "gpt-4") 100 50).2 ⟨0.03, 0.06⟩ rfl⟩,
   ⟨rfl, (C3_calculateCost_spec (some "gpt-5") 100 50).1 rfl⟩⟩

/-- The worked example in the source's doc comment: 100 prompt and 50
completion tokens on gpt-3.5-turbo cost exactly 0.00025 USD. -/
theorem calculateCost_doc_example :
    calculateCost (some "gpt-3.5-turbo") 100 50 = (0.00025 : ℚ) := by
  norm_num [calculateCost, PRICING]

/-- Claim C8: GET /models returns the identical fixed two-entry list on every
call, whatever state prior requests left behind. -/
theorem C8_models_constant (prior : List ChatBody) :
    handleGetModels prior =
      [⟨"gpt-3.5-turbo", "GPT-3.5 Turbo"⟩, ⟨"gpt-4", "GPT-4"⟩] := rfl

/-- Witness for C8 at the empty history. -/
theorem C8_models_constant_witness :
    handleGetModels [] =
      [⟨"gpt-3.5-turbo", "GPT-3.5 Turbo"⟩, ⟨"gpt-4", "GPT-4"⟩] :=
  C8_models_constant []

/-- Claim C9: the 4000-character cap is applied to the raw message before
HTML escaping; a message of 4000 `<` characters is accepted, and the sanitized
message forwarded downstream has 16000 characters — four times the cap, which
is never re-checked after escaping. -/
theorem C9_cap_before_escaping :
    validateChatRequest oversizedLtBody =
      Except.ok ⟨some (sanitizeMessage (List.replicate 4000 '<')),
        some "gpt-4", none, true⟩ ∧
    (sanitizeMessage (List.replicate 4000 '<')).length = 16000 ∧
    4000 < (sanitizeMessage (List.replicate 4000 '<')).length := by
  refine ⟨?_, ?_, ?_⟩
  · have hmsg : oversizedLtBody.message = some (List.replicate 4000 '<') := rfl
    simp only [validateChatRequest, hmsg]
    have h1 : ¬(List.isEmpty (List.replicate 4000 '<') = true) := by simp
    have h2 : ¬(4000 < List.length (List.replicate 4000 '<')) := by
      simp only [List.length_replicate]
      omega
    rw [if_neg h1, if_neg h2, if_neg, if_neg]
    all_goals first
      | rfl
      | decide
  · rw [sanitizeMessage_replicate_lt]
  · rw [sanitizeMessage_replicate_lt]
    norm_num

/-- Claim C1 (amended): the demo path returns the all-zero usage record, and
the upstream path copies the provider's total_tokens verbatim; therefore every
usage record in a successful POST /chat response satisfies
totalTokens = promptTokens + completionTokens provided the provider's reported
total equals the sum of its reported prompt and completion counts.  Without
that proviso the claim fails (see the counterexample). -/
theorem C1_total_tokens (env : Env) (dev : Bool) (b : ChatBody) (u : UsageRecord)
    (henv : ∀ req r, env.complete req = Except.ok r →
      r.usage.total_tokens = r.usage.prompt_tokens + r.usage.completion_tokens)
    (hu : (handleChatPost env dev b).1.usage = some u) :
    u.totalTokens = u.promptTokens + u.completionTokens := by
  cases hv : validateChatRequest b with
  | error e =>
    rw [handleChatPost_invalid_eq env dev b e hv] at hu
    exact Option.noConfusion hu
  | ok body =>
    cases hd : body.demoMode with
    | true =>
      rw [handleChatPost_demo_eq env dev b body hv hd] at hu
      have h0 : (⟨0, 0, 0, 0⟩ : UsageRecord) = u := Option.some.inj hu
      rw [← h0]
      rfl
    | false =>
      cases hc : env.complete (mkCompletionRequest body.apiKey body.message body.model) with
      | ok completion =>
        rw [handleChatPost_upstream_ok_eq env dev b body _ hv hd
          (getChatCompletion_ok_eq env body.apiKey body.message body.model
            completion hc)] at hu
        have h0 := Option.some.inj hu
        rw [← h0]
        exact henv _ _ hc
      | error pe =>
        rw [handleChatPost_upstream_err_eq env dev b body _ hv hd
          (getChatCompletion_err_eq env body.apiKey body.message body.model
            pe hc)] at hu
        exact Option.noConfusion hu

/-- Witness for C1: with a provider that always throws, the hypotheses hold
vacuously, and a validated demo request yields the all-zero usage record, on
which C1_total_tokens gives 0 = 0 + 0. -/
theorem C1_total_tokens_witness :
    ((handleChatPost errEnv false demoBody).1.usage =
      some (⟨0, 0, 0, 0⟩ : UsageRecord)) ∧
    (⟨0, 0, 0, 0⟩ : UsageRecord).totalTokens =
      (⟨0, 0, 0, 0⟩ : UsageRecord).promptTokens +
        (⟨0, 0, 0, 0⟩ : UsageRecord).completionTokens := by
  constructor
  · decide
  · exact C1_total_tokens errEnv false demoBody ⟨0, 0, 0, 0⟩
      (fun req r h => Except.noConfusion h) (by decide)

/-- Counterexample to C1 as stated: if the provider reports the internally
inconsistent usage block (prompt 1, completion 1, total 5), the upstream path
succeeds with status 200 and returns that block verbatim, so
usage.totalTokens = 5 while promptTokens + completionTokens = 2. -/
theorem C1_counterexample :
    (handleChatPost inconsistentUsageEnv false upstreamBody).1.status = 200 ∧
    ((handleChatPost inconsistentUsageEnv false upstreamBody).1.usage.map
      (fun u => (u.promptTokens, u.completionTokens, u.totalTokens))) =
        some (1, 1, 5) ∧
    (5 : Nat) ≠ 1 + 1 := by
  refine ⟨rfl, rfl, by decide⟩

/-- Claim C2: for any two validated demo-mode requests selecting the same
model, neither run performs any upstream client call, and both return the same
canned content, which depends only on the model (stated here by comparing with
the response computed from no message at all), for all messages, credentials,
environments and NODE_ENV settings. -/
theorem C2_demo_identical (env1 env2 : Env) (dev1 dev2 : Bool)
    (b1 b2 v1 v2 : ChatBody)
    (h1 : validateChatRequest b1 = Except.ok v1)
    (h2 : validateChatRequest b2 = Except.ok v2)
    (hd1 : b1.demoMode = true) (hd2 : b2.demoMode = true)
    (hm : v1.model = v2.model) :
    (handleChatPost env1 dev1 b1).2 = 0 ∧
    (handleChatPost env2 dev2 b2).2 = 0 ∧
    (handleChatPost env1 dev1 b1).1.content =
      some (getDemoResponse none v1.model) ∧
    (handleChatPost env2 dev2 b2).1.content =
      some (getDemoResponse none v1.model) := by
  obtain ⟨m1, hm1, hv1⟩ := validateChatRequest_ok_shape b1 v1 h1
  obtain ⟨m2, hm2, hv2⟩ := validateChatRequest_ok_shape b2 v2 h2
  have hd1' : v1.demoMode = true := by rw [hv1]; exact hd1
  have hd2' : v2.demoMode = true := by rw [hv2]; exact hd2
  refine ⟨?_, ?_, ?_, ?_⟩
  · rw [handleChatPost_demo_eq env1 dev1 b1 v1 h1 hd1']
  · rw [handleChatPost_demo_eq env2 dev2 b2 v2 h2 hd2']
  · rw [handleChatPost_demo_eq env1 dev1 b1 v1 h1 hd1']
    rfl
  · rw [handleChatPost_demo_eq env2 dev2 b2 v2 h2 hd2']
    rw [← hm]
    rfl

/-- Witness for C2: two concrete demo requests with the same model, different
messages, different credentials, different environments and different NODE_ENV
flags, via C2_demo_identical. -/
theorem C2_demo_identical_witness :
    (handleChatPost errEnv false demoBody).2 = 0 ∧
    (handleChatPost consistentUsageEnv true demoBody2).2 = 0 ∧
    (handleChatPost errEnv false demoBody).1.content =
      some (getDemoResponse none (some "gpt-3.5-turbo")) ∧
    (handleChatPost consistentUsageEnv true demoBody2).1.content =
      some (getDemoResponse none (some "gpt-3.5-turbo")) :=
  C2_demo_identical errEnv consistentUsageEnv false true demoBody demoBody2
    ⟨some (sanitizeMessage ['H', 'e', 'l', 'l', 'o']), some "gpt-3.5-turbo", none, true⟩
    ⟨some (sanitizeMessage ['B', 'y', 'e']), some "gpt-3.5-turbo", some sampleKey, true⟩
    (by decide) (by decide) rfl rfl rfl

/-- Claim C4: whenever validation rejects (in particular whenever the raw
message exceeds 4000 characters), the chat endpoint answers 400 and performs
zero upstream calls — within a request, validation strictly precedes any
network access. -/
theorem C4_validation_gates_upstream (env : Env) (dev : Bool) (b : ChatBody) :
    (∀ e, validateChatRequest b = Except.error e →
      (handleChatPost env dev b).1.status = 400 ∧
        (handleChatPost env dev b).2 = 0) ∧
    (∀ m, b.message = some m → 4000 < m.length →
      validateChatRequest b =
        Except.error ⟨400, "Message is too long (max 4000 characters)", none⟩) := by
  constructor
  · intro e he
    have h400 := (validateChatRequest_error_status b e he).1
    rw [handleChatPost_invalid_eq env dev b e he]
    exact ⟨h400, rfl⟩
  · intro m hm hlen
    have hne : ¬(m.isEmpty = true) := by
      cases m with
      | nil => simp at hlen
      | cons a t => simp
    simp only [validateChatRequest, hm]
    rw [if_neg hne, if_pos hlen]

/-- Witness for C4: a 4001-character message is rejected with 400 and the
request performs no upstream call, via C4_validation_gates_upstream. -/
theorem C4_validation_gates_upstream_witness :
    (handleChatPost errEnv false longBody).1.status = 400 ∧
    (handleChatPost errEnv false longBody).2 = 0 :=
  (C4_validation_gates_upstream errEnv false longBody).1
    ⟨400, "Message is too long (max 4000 characters)", none⟩
    ((C4_validation_gates_upstream errEnv false longBody).2
      (List.replicate 4001 'a') rfl
      (by simp only [List.length_replicate]; omega))

/-- Claim C5: every rejection of validateChatRequest is a 400; with demoMode
falsy, a request whose credential is absent or fails the sk- pattern is
rejected; with demoMode truthy, the credential field has no influence on
whether the request is accepted. -/
theorem C5_credential_gate (b : ChatBody) :
    (∀ e, validateChatRequest b = Except.error e → e.status = 400) ∧
    (b.demoMode = false →
      (∀ k, b.apiKey = some k → isValidApiKey (some k) = false) →
      isAccepted (validateChatRequest b) = false) ∧
    (b.demoMode = true → ∀ k1 k2,
      isAccepted (validateChatRequest (withApiKey b k1)) =
        isAccepted (validateChatRequest (withApiKey b k2))) := by
  refine ⟨?_, ?_, ?_⟩
  · intro e he
    exact (validateChatRequest_error_status b e he).1
  · intro hd hk
    cases hm : b.message with
    | none =>
      simp only [validateChatRequest, hm]
      rfl
    | some msg =>
      have hkey : (!jsTruthy b.apiKey || !isValidApiKey b.apiKey) = true := by
        cases hak : b.apiKey with
        | none => rfl
        | some k => simp [hk k hak]
      simp only [validateChatRequest, hm]
      split_ifs with hc1 hc2 hc3 hc4
      · rfl
      · rfl
      · rfl
      · rfl
      · exfalso
        apply hc4
        rw [hd, hkey]
        rfl
  · intro hd k1 k2
    cases hm : b.message with
    | none =>
      simp only [validateChatRequest, withApiKey, hm]
    | some msg =>
      simp only [validateChatRequest, withApiKey, hm, hd, Bool.not_true,
        Bool.false_and]
      split_ifs <;> rfl

/-- Witness for C5: Scenario C (demoMode false, no credential) is rejected,
and in demo mode two different credential values are accepted alike, via
C5_credential_gate. -/
theorem C5_credential_gate_witness :
    isAccepted (validateChatRequest scenarioCBody) = false ∧
    isAccepted (validateChatRequest (withApiKey demoBody (some ['x']))) =
      isAccepted (validateChatRequest (withApiKey demoBody none)) :=
  ⟨(C5_credential_gate scenarioCBody).2.1 rfl
      (fun k hk => Option.noConfusion hk),
   (C5_credential_gate demoBody).2.2 rfl (some ['x']) none⟩

/-- Claim C6: when the provider call throws, getChatCompletion re-raises the
single normalized failure — the provider's message when present and non-empty,
else the generic fallback — and the chat endpoint responds 500 with an error
field and neither usage nor content in the body. -/
theorem C6_upstream_failure (env : Env) (dev : Bool) (b v : ChatBody)
    (pe : ProviderError)
    (hv : validateChatRequest b = Except.ok v) (hd : b.demoMode = false)
    (he : env.complete (mkCompletionRequest v.apiKey v.message v.model) =
      Except.error pe) :
    getChatCompletion env v.apiKey v.message v.model =
      Except.error (normalizeUpstreamMessage pe) ∧
    (∀ m, pe.message = some m → m ≠ "" → normalizeUpstreamMessage pe = m) ∧
    (pe.message = none →
      normalizeUpstreamMessage pe = "Failed to get response from OpenAI") ∧
    (handleChatPost env dev b).1.status = 500 ∧
    (handleChatPost env dev b).1.error = some "Failed to process chat message" ∧
    (handleChatPost env dev b).1.usage = none ∧
    (handleChatPost env dev b).1.content = none := by
  obtain ⟨msg, hmsg, hvshape⟩ := validateChatRequest_ok_shape b v hv
  have hvd : v.demoMode = false := by rw [hvshape]; exact hd
  have hgcc : getChatCompletion env v.apiKey v.message v.model =
      Except.error (normalizeUpstreamMessage pe) := by
    unfold getChatCompletion
    rw [he]
  refine ⟨hgcc, ?_, ?_, ?_, ?_, ?_, ?_⟩
  · intro m hm hne
    unfold normalizeUpstreamMessage
    rw [hm]
    simp [hne]
  · intro hm
    unfold normalizeUpstreamMessage
    rw [hm]
  · rw [handleChatPost_upstream_err_eq env dev b v _ hv hvd hgcc]
  · rw [handleChatPost_upstream_err_eq env dev b v _ hv hvd hgcc]
  · rw [handleChatPost_upstream_err_eq env dev b v _ hv hvd hgcc]
  · rw [handleChatPost_upstream_err_eq env dev b v _ hv hvd hgcc]

/-- Witness for C6: a provider that throws with the message "Rate limit
reached" makes a valid non-demo request answer 500 with the fixed error string
and no usage, via C6_upstream_failure. -/
theorem C6_upstream_failure_witness :
    (handleChatPost rateLimitEnv false upstreamBody).1.status = 500 ∧
    (handleChatPost rateLimitEnv false upstreamBody).1.error =
      some "Failed to process chat message" ∧
    (handleChatPost rateLimitEnv false upstreamBody).1.usage = none ∧
    normalizeUpstreamMessage ⟨some "Rate limit reached"⟩ = "Rate limit reached" := by
  have h := C6_upstream_failure rateLimitEnv false upstreamBody
    ⟨some (sanitizeMessage ['H', 'i']), some "gpt-4", some sampleKey, false⟩
    ⟨some "Rate limit reached"⟩ (by decide) rfl rfl
  exact ⟨h.2.2.2.1, h.2.2.2.2.1, h.2.2.2.2.2.1,
    h.2.1 "Rate limit reached" rfl (by decide)⟩

/-- Claim C7: for every request passing the credential format check, the
validate-key endpoint answers 200 with a boolean verdict; the verdict is false
whenever the provider's models.list call throws (for any reason), and true
when it succeeds — no provider exception surfaces as a distinct error
response. -/
theorem C7_validate_key_boolean (env : Env) (kb kb2 : KeyBody)
    (hk : validateKeyRequest kb = Except.ok kb2) :
    (handleValidateKey env kb).status = 200 ∧
    (handleValidateKey env kb).valid = some (validateApiKey env kb2.apiKey) ∧
    (handleValidateKey env kb).error = none ∧
    (∀ pe, env.listModels kb2.apiKey = Except.error pe →
      validateApiKey env kb2.apiKey = false) ∧
    (∀ u, env.listModels kb2.apiKey = Except.ok u →
      validateApiKey env kb2.apiKey = true) := by
  refine ⟨?_, ?_, ?_, ?_, ?_⟩
  · simp only [handleValidateKey, hk]
  · simp only [handleValidateKey, hk]
  · simp only [handleValidateKey, hk]
  · intro pe hpe
    unfold validateApiKey
    rw [hpe]
  · intro u hu
    unfold validateApiKey
    rw [hu]

/-- Witness for C7: with a provider that always throws, a well-formed key is
reported \x7bvalid: false\x7d with status 200, via C7_validate_key_boolean. -/
theorem C7_validate_key_boolean_witness :
    (handleValidateKey rateLimitEnv ⟨some sampleKey⟩).status = 200 ∧
    (handleValidateKey rateLimitEnv ⟨some sampleKey⟩).valid = some false := by
  have h := C7_validate_key_boolean rateLimitEnv ⟨some sampleKey⟩ ⟨some sampleKey⟩
    (by decide)
  have hf : validateApiKey rateLimitEnv (⟨some sampleKey⟩ : KeyBody).apiKey = false :=
    h.2.2.2.1 ⟨some "Rate limit reached"⟩ rfl
  refine ⟨h.1, ?_⟩
  rw [h.2.1, hf]

/-- Claim C10: every validated demo-mode chat request is answered 200 with the
constant usage object (0 prompt tokens, 0 completion tokens, 0 total, 0 cost),
independent of message, model, credential, environment and NODE_ENV. -/
theorem C10_demo_usage_zero (env : Env) (dev : Bool) (b v : ChatBody)
    (hv : validateChatRequest b = Except.ok v) (hd : b.demoMode = true) :
    (handleChatPost env dev b).1.usage = some (⟨0, 0, 0, 0⟩ : UsageRecord) ∧
    (handleChatPost env dev b).1.status = 200 := by
  obtain ⟨msg, hmsg, hvshape⟩ := validateChatRequest_ok_shape b v hv
  have hvd : v.demoMode = true := by rw [hvshape]; exact hd
  rw [handleChatPost_demo_eq env dev b v hv hvd]
  exact ⟨rfl, rfl⟩

/-- Witness for C10: a concrete validated demo request gets the all-zero
usage record with status 200, via C10_demo_usage_zero. -/
theorem C10_demo_usage_zero_witness :
    (handleChatPost consistentUsageEnv true demoBody2).1.usage =
      some (⟨0, 0, 0, 0⟩ : UsageRecord) ∧
    (handleChatPost consistentUsageEnv true demoBody2).1.status = 200 :=
  C10_demo_usage_zero consistentUsageEnv true demoBody2
    ⟨some (sanitizeMessage ['B', 'y', 'e']), some "gpt-3.5-turbo", some sampleKey, true⟩
    (by decide) rfl

end AIChatProxy
